import Mathlib

/-!
Shallow embedding of the JWT session manager of the CAMPS PDF Manager
frontend (class `AuthManager` and the upload path of class `ApiClient`).

Modelling conventions:
* `this.token`, `this.refreshToken` are `Option String`; `none` stands for
  the JavaScript absent values `null` and `undefined` (both are falsy and
  both compare non-equal to any string).
* The browser `localStorage` is the `Storage` structure; `none` in a slot
  means the key is absent.  `localStorage.setItem` always stores a string:
  storing an absent value applies the ECMAScript ToString coercion, which
  yields the literal string "undefined" (the only absent value reaching a
  `setItem` in this code is `undefined`, read from a missing JSON field).
* The serialized principal (`JSON.stringify` on write, `JSON.parse` on
  read) is abstracted to storing the principal itself in the `user` slot:
  the JSON round-trip is the identity on well-formed principals.
* Network interaction is an explicit environment: each `fetch` call is fed
  a `FetchOutcome`, either a network error (the promise rejects) or a
  reply with a status and a JSON body; `body = none` means the body is not
  valid JSON, so `response.json()` rejects.  `response.ok` is derived from
  the status as the Fetch API defines it (status in 200..299).
* JavaScript object literals keyed by strings are association lists; the
  object spread `\x7b...a, ...b\x7d` is `spreadInto`, property assignment is
  `setKey` (later values win, first-insertion order is kept).  Lookup is
  over the literal's own keys.
* `console.log` of a plain string and `window.location.reload()` touch no
  session state and are dropped; `console.log` that reads a property of a
  possibly-absent object is modelled as the throw it causes.
-/

/-- The authenticated identity (`this.user`): id, name, role. -/
structure Principal where
  id : Nat
  name : String
  role : String
deriving DecidableEq, Repr

/-- Durable local storage: the three keys used by `AuthManager`
("access_token", "refresh_token", "user").  `none` means the key is
absent; the `user` slot abstracts the JSON serialization round-trip. -/
structure Storage where
  access_token : Option String
  refresh_token : Option String
  user : Option Principal
deriving DecidableEq, Repr

/-- In-memory fields of `AuthManager` together with the durable storage. -/
structure AuthState where
  token : Option String
  refreshToken : Option String
  user : Option Principal
  storage : Storage
deriving DecidableEq, Repr

/-- JavaScript falsiness of a possibly-absent string: `null`, `undefined`
and the empty string are falsy; every other string is truthy. -/
def isFalsy : Option String → Bool
  | none => true
  | some s => s == ""

/-- ECMAScript ToString of a possibly-absent string value, as applied by
`localStorage.setItem` and by template literals; the absent value reaching
this coercion in the modelled code is `undefined`. -/
def jsString : Option String → String
  | some s => s
  | none => "undefined"

/-- JavaScript `a || b` for a possibly-absent string `a`: the fallback is
taken when `a` is absent or empty (falsy). -/
def jsOrString (a : Option String) (b : String) : String :=
  match a with
  | some s => if s = "" then b else s
  | none => b

/-- Property assignment `obj[k] = v` on a string-keyed object represented
as an association list: replaces the value at the first occurrence of `k`,
keeping its position, or appends the new key at the end. -/
def setKey : List (String × String) → String → String → List (String × String)
  | [], k, v => [(k, v)]
  | (k₀, v₀) :: rest, k, v =>
      if k₀ = k then (k₀, v) :: rest else (k₀, v₀) :: setKey rest k v

/-- Object spread `\x7b ...base, ...upd \x7d` on string-keyed objects:
every property of `upd` is assigned over `base`, later values winning. -/
def spreadInto (base upd : List (String × String)) : List (String × String) :=
  upd.foldl (fun acc kv => setKey acc kv.1 kv.2) base

/-- An HTTP response as seen through the Fetch API: a status code and the
result of `response.json()` (`none` when the body is not valid JSON, so
`response.json()` rejects). -/
structure HttpResp (α : Type) where
  status : Nat
  body : Option α
deriving DecidableEq, Repr

/-- `response.ok` of the Fetch API: status in the range 200..299. -/
def HttpResp.ok {α : Type} (r : HttpResp α) : Bool :=
  200 ≤ r.status && r.status ≤ 299

/-- Outcome of one `fetch(...)` call: the promise rejects with a network
error, or resolves to a reply. -/
inductive FetchOutcome (α : Type) where
  | networkError : FetchOutcome α
  | reply : HttpResp α → FetchOutcome α
deriving DecidableEq, Repr

/-- JSON body of a reply of `POST /auth/refresh`; the `access_token` field
may be missing (`data.access_token` is then `undefined`). -/
structure RefreshPayload where
  access_token : Option String
deriving DecidableEq, Repr

/-- JSON body of a reply of `POST /auth/login`; each field may be
missing. -/
structure LoginPayload where
  access_token : Option String
  refresh_token : Option String
  user : Option Principal
  error : Option String
deriving DecidableEq, Repr

/-- Value returned by `AuthManager.login`: a success flag, the failure
message when present, and the logged-in user when present. -/
structure LoginResult where
  success : Bool
  message : Option String
  user : Option Principal
deriving DecidableEq, Repr

namespace AuthManager

/-- The `AuthManager` constructor: re-reads the three session fields from
durable storage (`localStorage.getItem("access_token")`,
`localStorage.getItem("refresh_token")`, and `JSON.parse` of the stored
user, which is `null` when the key is absent). -/
def construct (st : Storage) : AuthState :=
  { token := st.access_token
    refreshToken := st.refresh_token
    user := st.user
    storage := st }

/-- `AuthManager.logout`: clears the three in-memory fields and removes
the three durable keys.  The trailing `console.log` and
`window.location.reload()` touch no session state. -/
def logout (s : AuthState) : AuthState :=
  let _ := s
  { token := none
    refreshToken := none
    user := none
    storage := { access_token := none, refresh_token := none, user := none } }

/-- `AuthManager.refreshAccessToken`, fed the outcome of its single
`fetch` of `POST /auth/refresh`.  Guard: a falsy `this.refreshToken`
logs out and returns `false` without any network call.  A network error
or a body that `response.json()` cannot parse lands in the catch block,
which logs out and returns `false`; a non-ok reply logs out and returns
`false`.  An ok reply assigns `this.token = data.access_token` and stores
it, whether or not the field is present, and returns `true`. -/
def refreshAccessToken (renv : FetchOutcome RefreshPayload) (s : AuthState) :
    AuthState × Bool :=
  if isFalsy s.refreshToken then (logout s, false)
  else
    match renv with
    | .networkError => (logout s, false)
    | .reply r =>
      match r.body with
      | none => (logout s, false)
      | some data =>
        if r.ok then
          ({ s with
              token := data.access_token
              storage := { s.storage with
                            access_token := some (jsString data.access_token) } },
            true)
        else (logout s, false)

/-- `AuthManager.login`, fed the outcome of its single `fetch` of
`POST /auth/login`.  A network error or an unparseable body lands in the
catch block (connection-error result, state unchanged).  A non-ok reply
returns `data.error || "Falha no login"`, state unchanged.  An ok reply
assigns the three fields and the three durable keys, then logs
`this.user.name`: when the payload carries no user, that property access
throws, the catch returns the connection-error result, and the state
mutations above remain in place. -/
def login (lenv : FetchOutcome LoginPayload) (s : AuthState) :
    AuthState × LoginResult :=
  match lenv with
  | .networkError =>
      (s, { success := false, message := some "Erro de conexão com o servidor", user := none })
  | .reply r =>
    match r.body with
    | none =>
        (s, { success := false, message := some "Erro de conexão com o servidor", user := none })
    | some data =>
      if r.ok then
        let s₁ : AuthState :=
          { token := data.access_token
            refreshToken := data.refresh_token
            user := data.user
            storage :=
              { access_token := some (jsString data.access_token)
                refresh_token := some (jsString data.refresh_token)
                user := data.user } }
        match data.user with
        | some u => (s₁, { success := true, message := none, user := some u })
        | none =>
            (s₁, { success := false, message := some "Erro de conexão com o servidor", user := none })
      else
        (s, { success := false, message := some (jsOrString data.error "Falha no login"), user := none })

/-- `AuthManager.isAuthenticated`: double negation of `this.token` and of
`this.user`. -/
def isAuthenticated (s : AuthState) : Bool :=
  !(isFalsy s.token) && s.user.isSome

/-- `AuthManager.hasRole`. -/
def hasRole (s : AuthState) (role : String) : Bool :=
  match s.user with
  | none => false
  | some u => u.role == role

/-- `AuthManager.getToken`. -/
def getToken (s : AuthState) : Option String :=
  s.token

/-- The headers object built by `AuthManager.fetchWithAuth` before the
spread of the caller headers: Content-Type and the bearer access token. -/
def defaultHeaders (token : Option String) : List (String × String) :=
  [("Content-Type", "application/json"),
   ("Authorization", "Bearer " ++ jsString token)]

/-- What a call of `AuthManager.fetchWithAuth` does to its caller: one of
the two throws, a propagated network rejection, or a returned response. -/
inductive SendOutcome where
  | thrownUnauthenticated : SendOutcome
  | thrownSessionExpired : SendOutcome
  | networkError : SendOutcome
  | returned : HttpResp Unit → SendOutcome
deriving DecidableEq, Repr

/-- Result of one `AuthManager.fetchWithAuth` call: its outcome, the
session state it leaves behind, the headers of each request dispatched to
the caller URL in order, and how many times `refreshAccessToken` ran. -/
structure SendResult where
  outcome : SendOutcome
  state : AuthState
  dispatched : List (List (String × String))
  refreshCalls : Nat
deriving DecidableEq, Repr

/-- `AuthManager.fetchWithAuth`, fed the outcomes of its at most two
`fetch` calls of the caller URL (`e1`, `e2`) and the outcome consumed by
`refreshAccessToken` (`renv`).  A falsy `this.token` throws
("Não autenticado") before any network call.  The request headers are the
defaults spread-overridden by `options.headers`.  A first reply with
status other than 401 is returned as is.  On 401, `refreshAccessToken`
runs once; on failure the call throws ("Sessão expirada..."); on success
the Authorization header is overwritten with the new token and the
request is re-issued once, its reply returned whatever its status. -/
def fetchWithAuth (e1 e2 : FetchOutcome Unit) (renv : FetchOutcome RefreshPayload)
    (callerHeaders : List (String × String)) (s : AuthState) : SendResult :=
  if isFalsy s.token then
    { outcome := .thrownUnauthenticated, state := s, dispatched := [], refreshCalls := 0 }
  else
    let hdrs := spreadInto (defaultHeaders s.token) callerHeaders
    match e1 with
    | .networkError =>
        { outcome := .networkError, state := s, dispatched := [hdrs], refreshCalls := 0 }
    | .reply r1 =>
      if r1.status = 401 then
        let res := refreshAccessToken renv s
        if res.2 then
          let hdrs₂ := setKey hdrs "Authorization" ("Bearer " ++ jsString res.1.token)
          match e2 with
          | .networkError =>
              { outcome := .networkError, state := res.1,
                dispatched := [hdrs, hdrs₂], refreshCalls := 1 }
          | .reply r2 =>
              { outcome := .returned r2, state := res.1,
                dispatched := [hdrs, hdrs₂], refreshCalls := 1 }
        else
          { outcome := .thrownSessionExpired, state := res.1,
            dispatched := [hdrs], refreshCalls := 1 }
      else
        { outcome := .returned r1, state := s, dispatched := [hdrs], refreshCalls := 0 }

end AuthManager

namespace ApiClient

/-- Headers set on the multipart upload request of `ApiClient.upload`:
the XMLHttpRequest gets exactly one explicit header,
`Authorization: Bearer <getToken()>`; no Content-Type is injected
(`xhr.send(formData)` leaves it to the transport with its boundary). -/
def uploadHeaders (auth : AuthState) : List (String × String) :=
  [("Authorization", "Bearer " ++ jsString (AuthManager.getToken auth))]

end ApiClient

/-- Memory and durable storage hold the same three session values (the
principal slot compared through the abstracted JSON round-trip). -/
def memStorageAgree (s : AuthState) : Prop :=
  s.storage.access_token = s.token ∧
  s.storage.refresh_token = s.refreshToken ∧
  s.storage.user = s.user

/-- The spec invariant: the principal is present exactly when the access
token is present (non-null). -/
def sessionInvariant (s : AuthState) : Bool :=
  s.token.isSome == s.user.isSome

/-- An established session used as concrete input. -/
def activeState : AuthState :=
  { token := some "tok0"
    refreshToken := some "ref0"
    user := some { id := 1, name := "Alice", role := "admin" }
    storage :=
      { access_token := some "tok0"
        refresh_token := some "ref0"
        user := some { id := 1, name := "Alice", role := "admin" } } }

/-- A 2xx refresh reply whose JSON body lacks the access_token field. -/
def malformedRefreshReply : FetchOutcome RefreshPayload :=
  .reply { status := 200, body := some { access_token := none } }

/-- C3: a successful refresh (2xx reply whose payload carries the new
access token, on a state whose refresh token passes the guard) returns
success and overwrites only the access token, in memory and in durable
storage; the refresh token and the principal, in memory and in storage,
are exactly their pre-refresh values. -/
theorem c3_refresh_success_frame (s : AuthState) (r : HttpResp RefreshPayload)
    (newTok : String) (hrt : isFalsy s.refreshToken = false)
    (hok : r.ok = true) (hbody : r.body = some { access_token := some newTok }) :
    AuthManager.refreshAccessToken (.reply r) s =
      ({ s with
          token := some newTok
          storage := { s.storage with access_token := some newTok } }, true) := by
  simp [AuthManager.refreshAccessToken, hrt, hbody, hok, jsString]

/-- Witness for C3 at a concrete state and reply. -/
theorem c3_refresh_success_frame_witness :
    AuthManager.refreshAccessToken
        (.reply { status := 200, body := some { access_token := some "tok1" } })
        activeState =
      ({ activeState with
          token := some "tok1"
          storage := { activeState.storage with access_token := some "tok1" } }, true) :=
  c3_refresh_success_frame activeState _ "tok1" (by decide) (by decide) rfl

/-- C4: a send with an absent session (access token null) throws the
Unauthenticated error before dispatching anything: no request to the
caller URL, no refresh attempt, and the state is returned unchanged. -/
theorem c4_no_call_without_session (e1 e2 : FetchOutcome Unit)
    (renv : FetchOutcome RefreshPayload) (ch : List (String × String))
    (s : AuthState) (h : s.token = none) :
    AuthManager.fetchWithAuth e1 e2 renv ch s =
      { outcome := .thrownUnauthenticated, state := s, dispatched := [], refreshCalls := 0 } := by
  simp [AuthManager.fetchWithAuth, h, isFalsy]

/-- Witness for C4 at a concrete absent-session state. -/
theorem c4_no_call_without_session_witness :
    AuthManager.fetchWithAuth .networkError .networkError .networkError []
        (AuthManager.logout activeState) =
      { outcome := .thrownUnauthenticated, state := AuthManager.logout activeState,
        dispatched := [], refreshCalls := 0 } :=
  c4_no_call_without_session .networkError .networkError .networkError []
    (AuthManager.logout activeState) rfl

/-- C8: logout is idempotent: a second logout leaves exactly the state of
the first (and, being a total function of the state, cannot throw), and
the post-logout state is fully absent: all three fields cleared in memory
and in durable storage, also when no session was active. -/
theorem c8_logout_idempotent (s : AuthState) :
    AuthManager.logout (AuthManager.logout s) = AuthManager.logout s ∧
    (AuthManager.logout s).token = none ∧
    (AuthManager.logout s).refreshToken = none ∧
    (AuthManager.logout s).user = none ∧
    (AuthManager.logout s).storage.access_token = none ∧
    (AuthManager.logout s).storage.refresh_token = none ∧
    (AuthManager.logout s).storage.user = none := by
  simp [AuthManager.logout]

/-- A 401 reply on the caller URL. -/
def reply401 : HttpResp Unit := { status := 401, body := none }

/-- A refresh reply that succeeds with a fresh access token. -/
def goodRefreshReply : FetchOutcome RefreshPayload :=
  .reply { status := 200, body := some { access_token := some "tok1" } }

/-- C1: when the first dispatch returns 401 and the refresh protocol
succeeds, the request is re-issued exactly once and its reply is returned
to the caller whatever its status; in particular when the retried request
also returns 401, the call performed exactly one refresh and exactly one
retry (two dispatches in all) and hands the second 401 back without any
further refresh or retry. -/
theorem c1_at_most_one_retry (s : AuthState) (renv : FetchOutcome RefreshPayload)
    (ch : List (String × String)) (r1 r2 : HttpResp Unit)
    (hs : isFalsy s.token = false)
    (h1 : r1.status = 401) (h2 : r2.status = 401)
    (href : (AuthManager.refreshAccessToken renv s).2 = true) :
    (AuthManager.fetchWithAuth (.reply r1) (.reply r2) renv ch s).outcome =
      .returned r2 ∧
    (AuthManager.fetchWithAuth (.reply r1) (.reply r2) renv ch s).refreshCalls = 1 ∧
    (AuthManager.fetchWithAuth (.reply r1) (.reply r2) renv ch s).dispatched.length = 2 := by
  simp [AuthManager.fetchWithAuth, hs, h1, href]

/-- Witness for C1: both replies on the caller URL are 401, the refresh
succeeds. -/
theorem c1_at_most_one_retry_witness :
    (AuthManager.fetchWithAuth (.reply reply401) (.reply reply401)
        goodRefreshReply [] activeState).outcome = .returned reply401 ∧
    (AuthManager.fetchWithAuth (.reply reply401) (.reply reply401)
        goodRefreshReply [] activeState).refreshCalls = 1 ∧
    (AuthManager.fetchWithAuth (.reply reply401) (.reply reply401)
        goodRefreshReply [] activeState).dispatched.length = 2 :=
  c1_at_most_one_retry activeState goodRefreshReply [] reply401 reply401
    (by decide) rfl rfl (by decide)

/-- C2 counterexample: a 2xx refresh reply whose JSON body lacks the
access token is claimed to tear the whole session down and return
failure, but the code takes the success branch: it returns true, keeps
the refresh token and the principal (memory and storage), and only the
access token slot is clobbered. -/
theorem c2_counterexample :
    (AuthManager.refreshAccessToken malformedRefreshReply activeState).2 = true ∧
    (AuthManager.refreshAccessToken malformedRefreshReply activeState).1.refreshToken =
      some "ref0" ∧
    (AuthManager.refreshAccessToken malformedRefreshReply activeState).1.user =
      some { id := 1, name := "Alice", role := "admin" } ∧
    (AuthManager.refreshAccessToken malformedRefreshReply activeState).1.storage.refresh_token =
      some "ref0" ∧
    (AuthManager.refreshAccessToken malformedRefreshReply activeState).1.storage.user =
      some { id := 1, name := "Alice", role := "admin" } := by
  decide

/-- A refresh environment the code treats as a failure: a network error,
a non-2xx reply, or a body that `response.json()` cannot parse. -/
def refreshFailureEnv (renv : FetchOutcome RefreshPayload) : Prop :=
  renv = .networkError ∨
    ∃ r, renv = .reply r ∧ (r.ok = false ∨ r.body = none)

/-- C2 as amended: on every refresh failure the code recognises — a
network error, a non-2xx reply, an unparseable body, or the falsy
refresh-token guard — the call returns failure and tears the whole
session down: all three fields cleared, in memory and in durable storage,
with no partial update.  (A 2xx reply whose parsed body merely lacks the
access token is treated as success instead.) -/
theorem c2_teardown_on_recognised_failure (s : AuthState)
    (renv : FetchOutcome RefreshPayload)
    (h : refreshFailureEnv renv ∨ isFalsy s.refreshToken = true) :
    (AuthManager.refreshAccessToken renv s).2 = false ∧
    (AuthManager.refreshAccessToken renv s).1 =
      { token := none, refreshToken := none, user := none,
        storage := { access_token := none, refresh_token := none, user := none } } := by
  rcases h with h | h
  · rcases h with h | ⟨r, hr, hfail⟩
    · subst h
      by_cases hf : isFalsy s.refreshToken <;>
        simp [AuthManager.refreshAccessToken, AuthManager.logout, hf]
    · subst hr
      by_cases hf : isFalsy s.refreshToken
      · simp [AuthManager.refreshAccessToken, AuthManager.logout, hf]
      · rcases hfail with hok | hb
        · cases hbody : r.body with
          | none =>
              simp [AuthManager.refreshAccessToken, AuthManager.logout, hf, hbody]
          | some d =>
              simp [AuthManager.refreshAccessToken, AuthManager.logout, hf, hbody, hok]
        · simp [AuthManager.refreshAccessToken, AuthManager.logout, hf, hb]
  · simp [AuthManager.refreshAccessToken, AuthManager.logout, h]

/-- Witness for the amended C2: a network error during refresh on an
established session. -/
theorem c2_teardown_witness :
    (AuthManager.refreshAccessToken .networkError activeState).2 = false ∧
    (AuthManager.refreshAccessToken .networkError activeState).1 =
      { token := none, refreshToken := none, user := none,
        storage := { access_token := none, refresh_token := none, user := none } } :=
  c2_teardown_on_recognised_failure activeState .networkError (Or.inl (Or.inl rfl))

/-- A refresh environment whose 2xx parsed body, if any, carries the new
access token (the shape the backend contract promises on success). -/
def refreshEnvWellFormed : FetchOutcome RefreshPayload → Bool
  | .networkError => true
  | .reply r =>
    match r.body with
    | none => true
    | some d => !r.ok || d.access_token.isSome

/-- A login environment whose 2xx parsed body, if any, carries the access
token, the refresh token and the user (the shape the backend contract
promises on success). -/
def loginEnvWellFormed : FetchOutcome LoginPayload → Bool
  | .networkError => true
  | .reply r =>
    match r.body with
    | none => true
    | some d => !r.ok || (d.access_token.isSome && d.refresh_token.isSome && d.user.isSome)

/-- The 2xx parsed body of a refresh environment, if any, carries the new
access token precisely when the session it acts on has a principal: the
exact condition under which the success branch of the refresh keeps the
principal-iff-token invariant. -/
def refreshEnvMatches (renv : FetchOutcome RefreshPayload) (s : AuthState) : Bool :=
  match renv with
  | .networkError => true
  | .reply r =>
    match r.body with
    | none => true
    | some d => !r.ok || (d.access_token.isSome == s.user.isSome)

/-- The 2xx parsed body of a login environment, if any, carries the
access token precisely when it carries the user: the exact condition
under which the success branch of the login establishes the
principal-iff-token invariant. -/
def loginEnvBalanced : FetchOutcome LoginPayload → Bool
  | .networkError => true
  | .reply r =>
    match r.body with
    | none => true
    | some d => !r.ok || (d.access_token.isSome == d.user.isSome)

/-- Refresh keeps the principal-iff-token invariant exactly under
`refreshEnvMatches`: every failure branch tears the whole session down,
and the success branch replaces the token by the one in the payload while
keeping the principal. -/
theorem refresh_keeps_sessionInvariant (s : AuthState)
    (renv : FetchOutcome RefreshPayload)
    (henv : refreshEnvMatches renv s = true) :
    sessionInvariant (AuthManager.refreshAccessToken renv s).1 = true := by
  by_cases hf : isFalsy s.refreshToken
  · simp [AuthManager.refreshAccessToken, AuthManager.logout, hf, sessionInvariant]
  · cases renv with
    | networkError =>
        simp [AuthManager.refreshAccessToken, AuthManager.logout, hf, sessionInvariant]
    | reply r =>
      cases hbody : r.body with
      | none =>
          simp [AuthManager.refreshAccessToken, AuthManager.logout, hf, hbody,
            sessionInvariant]
      | some d =>
        by_cases hok : r.ok
        · have hat : d.access_token.isSome = s.user.isSome := by
            simp [refreshEnvMatches, hbody, hok] at henv
            exact henv
          simp [AuthManager.refreshAccessToken, hf, hbody, hok, sessionInvariant, hat]
        · simp [AuthManager.refreshAccessToken, AuthManager.logout, hf, hbody, hok,
            sessionInvariant]

/-- A session holding only a stray refresh token: no access token, no
principal (so the invariant holds), refresh token present. -/
def strayRefreshState : AuthState :=
  { token := none
    refreshToken := some "stray"
    user := none
    storage := { access_token := none, refresh_token := some "stray", user := none } }

/-- A fully absent session. -/
def absentState : AuthState :=
  { token := none
    refreshToken := none
    user := none
    storage := { access_token := none, refresh_token := none, user := none } }

/-- A 2xx login reply whose body carries a user but no tokens. -/
def lopsidedLoginReply : FetchOutcome LoginPayload :=
  .reply { status := 200,
           body := some { access_token := none, refresh_token := none,
                          user := some { id := 4, name := "Lia", role := "user" },
                          error := none } }

/-- C5 counterexample: four concrete operations, each acting on a state
(or storage) satisfying the invariant, break it.  (1) On an established
session, a 2xx refresh reply whose body lacks the access token is
accepted as success and leaves the token absent with the principal still
set.  (2) On an absent session, a 2xx login reply carrying a user but no
access token is accepted and sets the principal with no token.  (3) On a
session holding only a stray refresh token, a well-formed successful
refresh sets a token with no principal.  (4) Construction from a storage
holding an access token but no user yields a token with no principal. -/
theorem c5_counterexample :
    (sessionInvariant activeState = true ∧
      (AuthManager.refreshAccessToken malformedRefreshReply activeState).2 = true ∧
      sessionInvariant (AuthManager.refreshAccessToken malformedRefreshReply activeState).1 =
        false) ∧
    (sessionInvariant absentState = true ∧
      (AuthManager.login lopsidedLoginReply absentState).2.success = true ∧
      sessionInvariant (AuthManager.login lopsidedLoginReply absentState).1 = false) ∧
    (sessionInvariant strayRefreshState = true ∧
      (AuthManager.refreshAccessToken goodRefreshReply strayRefreshState).2 = true ∧
      sessionInvariant (AuthManager.refreshAccessToken goodRefreshReply strayRefreshState).1 =
        false) ∧
    sessionInvariant
      (AuthManager.construct
        { access_token := some "t", refresh_token := none, user := none }) = false := by
  decide

/-- C5 as amended: the invariant (principal present iff access token
present) holds after construction exactly when the stored values already
satisfy it; it is preserved unconditionally by logout and by every
failing login, refresh or send outcome; and it is preserved by a
successful login or refresh exactly under the balance conditions the
counterexample forces: the 2xx login payload carries the access token
precisely when it carries the user, and the 2xx refresh payload carries
the access token precisely when the session has a principal (send
inherits the refresh condition). -/
theorem c5_invariant_preservation :
    (∀ st : Storage, st.access_token.isSome = st.user.isSome →
        sessionInvariant (AuthManager.construct st) = true) ∧
    (∀ (s : AuthState) (lenv : FetchOutcome LoginPayload),
        sessionInvariant s = true → loginEnvBalanced lenv = true →
        sessionInvariant (AuthManager.login lenv s).1 = true) ∧
    (∀ (s : AuthState) (renv : FetchOutcome RefreshPayload),
        refreshEnvMatches renv s = true →
        sessionInvariant (AuthManager.refreshAccessToken renv s).1 = true) ∧
    (∀ (s : AuthState) (e1 e2 : FetchOutcome Unit)
        (renv : FetchOutcome RefreshPayload) (ch : List (String × String)),
        sessionInvariant s = true → refreshEnvMatches renv s = true →
        sessionInvariant (AuthManager.fetchWithAuth e1 e2 renv ch s).state = true) ∧
    (∀ s : AuthState, sessionInvariant (AuthManager.logout s) = true) := by
  refine ⟨?_, ?_, ?_, ?_, ?_⟩
  · intro st h
    simpa [AuthManager.construct, sessionInvariant] using h
  · intro s lenv hinv henv
    cases lenv with
    | networkError => simpa [AuthManager.login] using hinv
    | reply r =>
      cases hbody : r.body with
      | none => simpa [AuthManager.login, hbody] using hinv
      | some d =>
        by_cases hok : r.ok
        · have hbal : d.access_token.isSome = d.user.isSome := by
            simp [loginEnvBalanced, hbody, hok] at henv
            exact henv
          cases hu : d.user with
          | none =>
              rw [hu] at hbal
              simp only [Option.isSome_none] at hbal
              simp [AuthManager.login, hbody, hok, hu, sessionInvariant, hbal]
          | some u =>
              rw [hu] at hbal
              simp only [Option.isSome_some] at hbal
              simp [AuthManager.login, hbody, hok, hu, sessionInvariant, hbal]
        · simpa [AuthManager.login, hbody, hok] using hinv
  · intro s renv henv
    exact refresh_keeps_sessionInvariant s renv henv
  · intro s e1 e2 renv ch hinv henv
    by_cases hs : isFalsy s.token
    · simpa [AuthManager.fetchWithAuth, hs] using hinv
    · cases e1 with
      | networkError => simpa [AuthManager.fetchWithAuth, hs] using hinv
      | reply r1 =>
        by_cases h401 : r1.status = 401
        · by_cases hr : (AuthManager.refreshAccessToken renv s).2
          · have := refresh_keeps_sessionInvariant s renv henv
            cases e2 <;> simpa [AuthManager.fetchWithAuth, hs, h401, hr] using this
          · have := refresh_keeps_sessionInvariant s renv henv
            simpa [AuthManager.fetchWithAuth, hs, h401, hr] using this
        · simpa [AuthManager.fetchWithAuth, hs, h401] using hinv
  · intro s
    simp [AuthManager.logout, sessionInvariant]

/-- Witness for the amended C5: the refresh conjunct applied to an
established session and a well-formed successful refresh reply. -/
theorem c5_invariant_preservation_witness :
    sessionInvariant (AuthManager.refreshAccessToken goodRefreshReply activeState).1 =
      true :=
  c5_invariant_preservation.2.2.1 activeState goodRefreshReply (by decide)

/-- Memory-storage agreement is decidable, so it can be checked by
evaluation at concrete states. -/
instance (s : AuthState) : Decidable (memStorageAgree s) := by
  unfold memStorageAgree
  infer_instance

/-- A 2xx login reply whose body carries a refresh token and a user but
no access token. -/
def tokenlessLoginReply : FetchOutcome LoginPayload :=
  .reply { status := 200,
           body := some { access_token := none, refresh_token := some "r1",
                          user := some { id := 5, name := "Mo", role := "user" },
                          error := none } }

/-- C9 counterexample: session-mutating operations the claim quantifies
over leave memory and durable storage in disagreement.  A 2xx refresh
reply whose body lacks the access token mutates the session and stores
the literal string "undefined" under the access-token key while memory
holds no token (setItem applies ToString to the undefined field); a 2xx
login reply lacking the access token does the same. -/
theorem c9_counterexample :
    ((AuthManager.refreshAccessToken malformedRefreshReply activeState).1.token = none ∧
      (AuthManager.refreshAccessToken malformedRefreshReply activeState).1.storage.access_token =
        some "undefined" ∧
      ¬ memStorageAgree (AuthManager.refreshAccessToken malformedRefreshReply activeState).1) ∧
    ((AuthManager.login tokenlessLoginReply absentState).1.token = none ∧
      (AuthManager.login tokenlessLoginReply absentState).1.storage.access_token =
        some "undefined" ∧
      ¬ memStorageAgree (AuthManager.login tokenlessLoginReply absentState).1) := by
  decide

/-- C9 as amended: construction reads back exactly the three stored
values (and therefore agrees with them); logout re-establishes the
memory-storage agreement unconditionally (and so does every refresh
failure, which runs logout); every login and refresh outcome preserves
the agreement provided its 2xx payload carries the expected token fields
(login: access token, refresh token and user; refresh: access token).
When a 2xx payload lacks a token field, the string "undefined" lands in
storage while memory holds no value, and the agreement breaks — the case
the counterexample exhibits. -/
theorem c9_memory_storage_agreement :
    (∀ st : Storage, memStorageAgree (AuthManager.construct st) ∧
        (AuthManager.construct st).token = st.access_token ∧
        (AuthManager.construct st).refreshToken = st.refresh_token ∧
        (AuthManager.construct st).user = st.user) ∧
    (∀ (s : AuthState) (lenv : FetchOutcome LoginPayload),
        memStorageAgree s → loginEnvWellFormed lenv = true →
        memStorageAgree (AuthManager.login lenv s).1) ∧
    (∀ (s : AuthState) (renv : FetchOutcome RefreshPayload),
        memStorageAgree s → refreshEnvWellFormed renv = true →
        memStorageAgree (AuthManager.refreshAccessToken renv s).1) ∧
    (∀ s : AuthState, memStorageAgree (AuthManager.logout s)) := by
  refine ⟨?_, ?_, ?_, ?_⟩
  · intro st
    exact ⟨⟨rfl, rfl, rfl⟩, rfl, rfl, rfl⟩
  · intro s lenv hag henv
    cases lenv with
    | networkError => simpa [AuthManager.login] using hag
    | reply r =>
      cases hbody : r.body with
      | none => simpa [AuthManager.login, hbody] using hag
      | some d =>
        by_cases hok : r.ok
        · have hfields : d.access_token.isSome = true ∧ d.refresh_token.isSome = true := by
            simp [loginEnvWellFormed, hbody, hok] at henv
            exact ⟨henv.1.1, henv.1.2⟩
          obtain ⟨a, ha⟩ := Option.isSome_iff_exists.mp hfields.1
          obtain ⟨b, hb⟩ := Option.isSome_iff_exists.mp hfields.2
          cases hu : d.user with
          | none =>
              simp [AuthManager.login, hbody, hok, hu, memStorageAgree, ha, hb, jsString]
          | some u =>
              simp [AuthManager.login, hbody, hok, hu, memStorageAgree, ha, hb, jsString]
        · simpa [AuthManager.login, hbody, hok] using hag
  · intro s renv hag henv
    by_cases hf : isFalsy s.refreshToken
    · simp [AuthManager.refreshAccessToken, AuthManager.logout, hf, memStorageAgree]
    · cases renv with
      | networkError =>
          simp [AuthManager.refreshAccessToken, AuthManager.logout, hf, memStorageAgree]
      | reply r =>
        cases hbody : r.body with
        | none =>
            simp [AuthManager.refreshAccessToken, AuthManager.logout, hf, hbody,
              memStorageAgree]
        | some d =>
          by_cases hok : r.ok
          · have hat : d.access_token.isSome = true := by
              simp [refreshEnvWellFormed, hbody, hok] at henv
              exact henv
            obtain ⟨a, ha⟩ := Option.isSome_iff_exists.mp hat
            exact ⟨by simp [AuthManager.refreshAccessToken, hf, hbody, hok, ha, jsString],
                   by simpa [AuthManager.refreshAccessToken, hf, hbody, hok] using hag.2.1,
                   by simpa [AuthManager.refreshAccessToken, hf, hbody, hok] using hag.2.2⟩
          · simp [AuthManager.refreshAccessToken, AuthManager.logout, hf, hbody, hok,
              memStorageAgree]
  · intro s
    simp [AuthManager.logout, memStorageAgree]

/-- Witness for C9: the refresh conjunct applied to an established
session with agreeing storage and a well-formed successful refresh. -/
theorem c9_memory_storage_agreement_witness :
    memStorageAgree (AuthManager.refreshAccessToken goodRefreshReply activeState).1 :=
  c9_memory_storage_agreement.2.2.1 activeState goodRefreshReply
    ⟨rfl, rfl, rfl⟩ (by decide)

/-- Assigning one key leaves the lookup of every other key unchanged. -/
theorem lookup_setKey_ne (l : List (String × String)) (k₁ v k : String)
    (h : k ≠ k₁) : (setKey l k₁ v).lookup k = l.lookup k := by
  have hbeq : (k == k₁) = false := by simp [h]
  induction l with
  | nil => simp [setKey, List.lookup, hbeq]
  | cons kv rest ih =>
    obtain ⟨k₀, v₀⟩ := kv
    by_cases hk : k₀ = k₁
    · subst hk
      simp [setKey, List.lookup, hbeq]
    · simp only [setKey, if_neg hk, List.lookup]
      cases hkk : (k == k₀) <;> simp [hkk, ih]

/-- Spreading an object that does not mention a key leaves that key's
lookup at its base value. -/
theorem lookup_spreadInto_absent (upd base : List (String × String))
    (k : String) (h : upd.lookup k = none) :
    (spreadInto base upd).lookup k = base.lookup k := by
  induction upd generalizing base with
  | nil => rfl
  | cons kv rest ih =>
    obtain ⟨k₁, v₁⟩ := kv
    have hk : k ≠ k₁ := by
      intro he
      subst he
      simp [List.lookup] at h
    have hbeq : (k == k₁) = false := by simp [hk]
    have hrest : rest.lookup k = none := by
      simpa [List.lookup, hbeq] using h
    calc (spreadInto base ((k₁, v₁) :: rest)).lookup k
        = (spreadInto (setKey base k₁ v₁) rest).lookup k := rfl
      _ = (setKey base k₁ v₁).lookup k := ih (setKey base k₁ v₁) hrest
      _ = base.lookup k := lookup_setKey_ne base k₁ v₁ k hk

/-- With a truthy token, whatever the environment does, the first request
dispatched to the caller URL carries the spread-merged headers. -/
theorem fetchWithAuth_dispatched_head (e1 e2 : FetchOutcome Unit)
    (renv : FetchOutcome RefreshPayload) (ch : List (String × String))
    (s : AuthState) (hs : isFalsy s.token = false) :
    (AuthManager.fetchWithAuth e1 e2 renv ch s).dispatched.head? =
      some (spreadInto (AuthManager.defaultHeaders s.token) ch) := by
  cases e1 with
  | networkError => simp [AuthManager.fetchWithAuth, hs]
  | reply r1 =>
    by_cases h401 : r1.status = 401
    · by_cases hr : (AuthManager.refreshAccessToken renv s).2
      · cases e2 <;> simp [AuthManager.fetchWithAuth, hs, h401, hr]
      · simp [AuthManager.fetchWithAuth, hs, h401, hr]
    · simp [AuthManager.fetchWithAuth, hs, h401]

/-- C7 counterexample: the caller headers are spread after the defaults,
so a caller-supplied Authorization overrides the session token: with an
established session holding access token "tok0", a caller headers object
carrying its own Authorization reaches the wire unchanged, and the
dispatched request does not carry "Bearer tok0". -/
theorem c7_counterexample :
    activeState.token = some "tok0" ∧
    (AuthManager.fetchWithAuth (.reply { status := 200, body := none })
        (.reply { status := 200, body := none }) .networkError
        [("Authorization", "Bearer attacker")] activeState).dispatched =
      [[("Content-Type", "application/json"), ("Authorization", "Bearer attacker")]] := by
  decide

/-- C7 as amended: send builds the default headers (bearer access token
and JSON content type), but caller-supplied headers take precedence; when
the caller headers object mentions neither Authorization nor
Content-Type, the dispatched request carries exactly the two defaults.
The multipart upload path bypasses send entirely: it sets only
Authorization with the bearer access token and injects no content type. -/
theorem c7_default_headers_unless_overridden :
    (∀ (s : AuthState) (t : String) (e1 e2 : FetchOutcome Unit)
        (renv : FetchOutcome RefreshPayload) (ch h : List (String × String)),
        s.token = some t → t ≠ "" →
        ch.lookup "Authorization" = none → ch.lookup "Content-Type" = none →
        (AuthManager.fetchWithAuth e1 e2 renv ch s).dispatched.head? = some h →
        h.lookup "Authorization" = some ("Bearer " ++ t) ∧
        h.lookup "Content-Type" = some "application/json") ∧
    (∀ (s : AuthState) (t : String), s.token = some t →
        ApiClient.uploadHeaders s = [("Authorization", "Bearer " ++ t)] ∧
        (ApiClient.uploadHeaders s).lookup "Content-Type" = none) := by
  constructor
  · intro s t e1 e2 renv ch h ht htne hA hC hhead
    have hs : isFalsy s.token = false := by simp [isFalsy, ht, htne]
    have hspread := fetchWithAuth_dispatched_head e1 e2 renv ch s hs
    rw [hhead] at hspread
    have hh : h = spreadInto (AuthManager.defaultHeaders s.token) ch :=
      Option.some.inj hspread
    subst hh
    rw [ht]
    refine ⟨?_, ?_⟩
    · rw [lookup_spreadInto_absent ch _ _ hA]
      rfl
    · rw [lookup_spreadInto_absent ch _ _ hC]
      rfl
  · intro s t ht
    constructor
    · simp [ApiClient.uploadHeaders, AuthManager.getToken, ht, jsString]
    · simp [ApiClient.uploadHeaders, AuthManager.getToken, ht, jsString, List.lookup]

/-- Witness for the amended C7: an established session, empty caller
headers, a 200 reply. -/
theorem c7_default_headers_witness :
    ([("Content-Type", "application/json"), ("Authorization", "Bearer tok0")] :
        List (String × String)).lookup "Authorization" = some ("Bearer " ++ "tok0") ∧
    ([("Content-Type", "application/json"), ("Authorization", "Bearer tok0")] :
        List (String × String)).lookup "Content-Type" = some "application/json" :=
  c7_default_headers_unless_overridden.1 activeState "tok0"
    (.reply { status := 200, body := none }) (.reply { status := 200, body := none })
    .networkError [] _ rfl (by decide) rfl rfl (by decide)

/-- An AuthState whose access token is the empty string: non-null, but
falsy in JavaScript. -/
def emptyTokenState : AuthState :=
  { token := some ""
    refreshToken := none
    user := none
    storage := { access_token := some "", refresh_token := none, user := none } }

/-- C10 counterexample: with the access token equal to the empty string —
non-null — and the principal null, send does not dispatch: the guard
tests JavaScript falsiness, not nullness, so the call throws the
Unauthenticated error with no request issued. -/
theorem c10_counterexample :
    emptyTokenState.token ≠ none ∧
    emptyTokenState.user = none ∧
    (AuthManager.fetchWithAuth (.reply { status := 200, body := none })
        (.reply { status := 200, body := none }) .networkError []
        emptyTokenState).outcome = .thrownUnauthenticated ∧
    (AuthManager.fetchWithAuth (.reply { status := 200, body := none })
        (.reply { status := 200, body := none }) .networkError []
        emptyTokenState).dispatched = [] := by
  decide

/-- C10 as amended: send throws the Unauthenticated error exactly when
the access token is JavaScript-falsy (absent or the empty string),
independently of the principal; with a non-falsy access token the request
is dispatched whatever the principal is, in particular when
isAuthenticated would be false. -/
theorem c10_unauthenticated_iff_falsy :
    (∀ (s : AuthState) (e1 e2 : FetchOutcome Unit)
        (renv : FetchOutcome RefreshPayload) (ch : List (String × String)),
        (AuthManager.fetchWithAuth e1 e2 renv ch s).outcome = .thrownUnauthenticated ↔
          isFalsy s.token = true) ∧
    (∀ (s : AuthState) (e1 e2 : FetchOutcome Unit)
        (renv : FetchOutcome RefreshPayload) (ch : List (String × String)),
        isFalsy s.token = false →
        (AuthManager.fetchWithAuth e1 e2 renv ch s).dispatched ≠ []) := by
  have notun : ∀ (s : AuthState) (e1 e2 : FetchOutcome Unit)
      (renv : FetchOutcome RefreshPayload) (ch : List (String × String)),
      isFalsy s.token = false →
      (AuthManager.fetchWithAuth e1 e2 renv ch s).outcome ≠ .thrownUnauthenticated ∧
      (AuthManager.fetchWithAuth e1 e2 renv ch s).dispatched ≠ [] := by
    intro s e1 e2 renv ch hs
    cases e1 with
    | networkError => simp [AuthManager.fetchWithAuth, hs]
    | reply r1 =>
      by_cases h401 : r1.status = 401
      · by_cases hr : (AuthManager.refreshAccessToken renv s).2
        · cases e2 <;> simp [AuthManager.fetchWithAuth, hs, h401, hr]
        · simp [AuthManager.fetchWithAuth, hs, h401, hr]
      · simp [AuthManager.fetchWithAuth, hs, h401]
  constructor
  · intro s e1 e2 renv ch
    constructor
    · intro hout
      by_contra hne
      have hs : isFalsy s.token = false := Bool.eq_false_iff.mpr hne
      exact (notun s e1 e2 renv ch hs).1 hout
    · intro hs
      simp [AuthManager.fetchWithAuth, hs]
  · intro s e1 e2 renv ch hs
    exact (notun s e1 e2 renv ch hs).2

/-- Witness for the amended C10: the throw happens on a logged-out state,
and an established session dispatches. -/
theorem c10_unauthenticated_iff_falsy_witness :
    (AuthManager.fetchWithAuth (.reply { status := 200, body := none })
        .networkError .networkError [] (AuthManager.logout activeState)).outcome =
      .thrownUnauthenticated ∧
    (AuthManager.fetchWithAuth (.reply { status := 200, body := none })
        .networkError .networkError [] activeState).dispatched ≠ [] :=
  ⟨(c10_unauthenticated_iff_falsy.1 (AuthManager.logout activeState)
      (.reply { status := 200, body := none }) .networkError .networkError []).mpr rfl,
   c10_unauthenticated_iff_falsy.2 activeState
      (.reply { status := 200, body := none }) .networkError .networkError []
      (by decide)⟩
